import Mathlib

/-!
Verification development for the pushbullet-sms-mcp server (src/index.js).

The relevant program state is the module-level array `smsMessages`, modelled
as a `List Sms` with the array front (index 0) at the list head.  All
operations of src/index.js that read or write that array are translated
below as pure state-passing functions; the ambient clock (`Date.now()`,
`new Date()`) is passed explicitly as a millisecond epoch argument, and
network payloads (WebSocket frames, REST responses) are passed as explicit
structured inputs mirroring the JSON shapes the code destructures.
-/

/-- JS `a || d` for an optional string field: `undefined` and `""` are falsy. -/
def jsOrStr (o : Option String) (d : String) : String :=
  match o with
  | some s => if s = "" then d else s
  | none => d

/-- JS truthiness filter for an optional string: `undefined` and `""` are falsy. -/
def jsTruthy (o : Option String) : Option String :=
  match o with
  | some s => if s = "" then none else some s
  | none => none

/-- `needle.isPrefixOf hay` on character lists (used to model `String.prototype.includes`). -/
def isPrefixCh : List Char → List Char → Bool
  | [], _ => true
  | _ :: _, [] => false
  | a :: as, b :: bs => a == b && isPrefixCh as bs

/-- `containsSub needle hay`: needle occurs as a contiguous substring of hay. -/
def containsSub (needle : List Char) : List Char → Bool
  | [] => isPrefixCh needle []
  | c :: t => isPrefixCh needle (c :: t) || containsSub needle t

/-- Model of JS `hay.includes(needle)`. -/
def jsIncludes (hay needle : String) : Bool :=
  containsSub needle.toList hay.toList

/-- Model of JS `s.toLowerCase()` (ASCII, which covers all literals the code compares). -/
def lowerStr (s : String) : String :=
  String.mk (s.toList.map Char.toLower)

/-! ## Calendar arithmetic: models of `Date.prototype.toISOString` and `Date.parse`. -/

/-- Left-pad a decimal numeral with zeros to width `w`. -/
def padNum (w n : Nat) : String :=
  let s := toString n
  String.mk (List.replicate (w - s.length) '0') ++ s

/-- Civil date from days since the Unix epoch (nonnegative), by the standard
era-based algorithm; returns (year, month, day). -/
def civilFromDays (days : Nat) : Nat × Nat × Nat :=
  let z := days + 719468
  let era := z / 146097
  let doe := z % 146097
  let yoe := (doe - doe / 1460 + doe / 36524 - doe / 146096) / 365
  let y := yoe + era * 400
  let doy := doe - (365 * yoe + yoe / 4 - yoe / 100)
  let mp := (5 * doy + 2) / 153
  let d := doy - (153 * mp + 2) / 5 + 1
  let m := if mp < 10 then mp + 3 else mp - 9
  (if m ≤ 2 then y + 1 else y, m, d)

/-- Days since the Unix epoch of a civil date (valid for years ≥ 1). -/
def daysFromCivil (y m d : Nat) : Int :=
  let yi : Int := if m ≤ 2 then (y : Int) - 1 else (y : Int)
  let era : Int := yi / 400
  let yoe : Int := yi - era * 400
  let mp : Int := if 2 < m then (m : Int) - 3 else (m : Int) + 9
  let doy : Int := (153 * mp + 2) / 5 + (d : Int) - 1
  let doe : Int := yoe * 365 + yoe / 4 - yoe / 100 + doy
  era * 146097 + doe - 719468

/-- Model of `new Date(ms).toISOString()` for a nonnegative millisecond epoch:
the exact "YYYY-MM-DDTHH:MM:SS.mmmZ" string JS produces for years 1970..9999. -/
def isoOfEpochMs (ms : Nat) : String :=
  let s := ms / 1000
  let msPart := ms % 1000
  let days := s / 86400
  let rem := s % 86400
  let ymd := civilFromDays days
  padNum 4 ymd.1 ++ "-" ++ padNum 2 ymd.2.1 ++ "-" ++ padNum 2 ymd.2.2 ++ "T" ++
    padNum 2 (rem / 3600) ++ ":" ++ padNum 2 (rem % 3600 / 60) ++ ":" ++
    padNum 2 (rem % 60) ++ "." ++ padNum 3 msPart ++ "Z"

/-- Digits-to-number; `none` unless the list is a nonempty run of ASCII digits. -/
def digitsToNat (l : List Char) : Option Nat :=
  if l ≠ [] ∧ l.all Char.isDigit then
    some (l.foldl (fun a c => a * 10 + (c.toNat - 48)) 0)
  else none

/-- Model of `new Date(str).getTime()` on the strings this program stores:
parses the `toISOString` shape "YYYY-MM-DDTHH:MM:SS.mmmZ" to a millisecond
epoch and yields `none` (JS `NaN`) on anything else. -/
def msOfIso (str : String) : Option Int :=
  let l := str.toList
  if l.length = 24 ∧ l[4]? = some '-' ∧ l[7]? = some '-' ∧ l[10]? = some 'T' ∧
      l[13]? = some ':' ∧ l[16]? = some ':' ∧ l[19]? = some '.' ∧ l[23]? = some 'Z' then
    match digitsToNat (l.take 4), digitsToNat ((l.drop 5).take 2),
        digitsToNat ((l.drop 8).take 2), digitsToNat ((l.drop 11).take 2),
        digitsToNat ((l.drop 14).take 2), digitsToNat ((l.drop 17).take 2),
        digitsToNat ((l.drop 20).take 3) with
    | some y, some mo, some d, some h, some mi, some sec, some msp =>
        some ((daysFromCivil y mo d * 86400 + h * 3600 + mi * 60 + sec) * 1000 + msp)
    | _, _, _, _, _, _, _ => none
  else none

/-! ## Data model: the stored message shape (src/index.js lines 78-84, 91-97, 139-145, 273-279). -/

/-- A stored SMS record, exactly the object shape the code builds. -/
structure Sms where
  id : String
  sender : String
  body : String
  timestamp : String
  threadId : Option String := none
  app : Option String := none
deriving DecidableEq, Repr

/-- `MAX_STORED_MESSAGES` (src/index.js line 18). -/
def MAX_STORED_MESSAGES : Nat := 100

/-- The `while (smsMessages.length > MAX_STORED_MESSAGES) smsMessages.pop()` loop
(src/index.js lines 111-113), with explicit structural fuel (the initial length
bounds the number of pops). -/
def trimStoreAux : Nat → List Sms → List Sms
  | 0, l => l
  | n + 1, l => if l.length > MAX_STORED_MESSAGES then trimStoreAux n l.dropLast else l

def trimStore (l : List Sms) : List Sms :=
  trimStoreAux l.length l

/-- `addSmsMessage` (src/index.js lines 104-114): unshift to the front, then
pop from the back while over the bound.  (The `console.error` log is ignored.) -/
def addSmsMessage (store : List Sms) (sms : Sms) : List Sms :=
  trimStore (sms :: store)

/-- A sequence of `addSmsMessage` insertions starting from the empty store. -/
def insertAll (msgs : List Sms) : List Sms :=
  msgs.foldl addSmsMessage []

/-! ## CodeExtractor: `extractVerificationCode` (src/index.js lines 157-176).

Each JS regex is translated as a match-at-position function, and leftmost-match
semantics (`String.prototype.match` without the g flag) as a scan over start
positions carrying the previous character (needed for the `\b` assertions). -/

/-- JS regex `\w` class: ASCII letters, digits and underscore. -/
def isWordCh (c : Char) : Bool :=
  c.isAlphanum || c = '_'

/-- JS regex `\s` class, restricted to the ASCII whitespace characters. -/
def isSpaceCh (c : Char) : Bool :=
  c = ' ' || c = '\t' || c = '\n' || c = '\r' || c = '\x0b' || c = '\x0c'

/-- Length of the longest prefix satisfying `p`. -/
def countWhile (p : Char → Bool) (l : List Char) : Nat :=
  (l.takeWhile p).length

/-- Leftmost-match driver: try `tryAt` at every position, left to right,
passing the character preceding the position (for word-boundary tests). -/
def scanFrom (tryAt : Option Char → List Char → Option String) :
    Option Char → List Char → Option String
  | prev, [] => tryAt prev []
  | prev, c :: rest =>
    match tryAt prev (c :: rest) with
    | some r => some r
    | none => scanFrom tryAt (some c) rest

/-- Match `\b(\d{n})\b` at this position: previous character (if any) is a
non-word character, exactly `n` digits follow, and the next character (if any)
after them is a non-word character. -/
def tryDigitRun (n : Nat) (prev : Option Char) (l : List Char) : Option String :=
  let boundaryOk := match prev with | none => true | some c => !isWordCh c
  let ds := l.take n
  let afterOk := match l.drop n with | [] => true | c :: _ => !isWordCh c
  if boundaryOk && ds.length == n && ds.all Char.isDigit && afterOk then
    some (String.mk ds)
  else none

/-- Match `lit[:\s]+(\d{4,8})` case-insensitively at this position (`lit` given
lowercase).  Because `[:\s]` and `\d` are disjoint, backtracking collapses to:
the maximal nonempty separator run, then a greedy digit capture of 4 to 8. -/
def tryLitColonDigits (lit : List Char) (_prev : Option Char) (l : List Char) :
    Option String :=
  if (l.take lit.length).map Char.toLower = lit then
    let rest := l.drop lit.length
    let k := countWhile (fun c => c == ':' || isSpaceCh c) rest
    let rest2 := rest.drop k
    let dcount := countWhile Char.isDigit rest2
    if 1 ≤ k ∧ 4 ≤ dcount then some (String.mk (rest2.take (min dcount 8)))
    else none
  else none

/-- Match `(\d{4,8})\s+is your` case-insensitively at this position.  Because a
digit cannot follow a shorter greedy capture (the next character would again be
a digit, failing `\s`), the digit run from this position must have length 4..8;
then a nonempty whitespace run and the literal `is your` must follow. -/
def tryDigitsIsYour (_prev : Option Char) (l : List Char) : Option String :=
  let dcount := countWhile Char.isDigit l
  if 4 ≤ dcount ∧ dcount ≤ 8 then
    let rest := l.drop dcount
    let k := countWhile isSpaceCh rest
    let rest2 := rest.drop k
    if 1 ≤ k ∧ (rest2.take 7).map Char.toLower = "is your".toList then
      some (String.mk (l.take dcount))
    else none
  else none

/-- `extractVerificationCode` (src/index.js lines 157-176): try the six
patterns in source order, returning the first pattern's leftmost capture. -/
def extractVerificationCode (text : String) : Option String :=
  let l := text.toList
  (scanFrom (tryDigitRun 6) none l) <|>
  (scanFrom (tryDigitRun 4) none l) <|>
  (scanFrom (tryDigitRun 8) none l) <|>
  (scanFrom (tryLitColonDigits "code".toList) none l) <|>
  (scanFrom tryDigitsIsYour none l) <|>
  (scanFrom (tryLitColonDigits "verify".toList) none l)

/-! ## Filters and the wait primitive (src/index.js lines 179-223, 429-446). -/

/-- The filter object assembled by the `wait_for_sms` tool handler
(src/index.js lines 431-435): each key is present only when the argument is
truthy. -/
structure SmsFilter where
  sender : Option String := none
  contains : Option String := none
  hasCode : Bool := false
deriving DecidableEq, Repr

/-- `matchesFilter` (src/index.js lines 211-223) on a defined message.  The
guards `if (filter.sender && ...)` skip a check when the key is absent or the
empty string (JS falsiness). -/
def matchesFilter (sms : Sms) (filter : SmsFilter) : Bool :=
  let senderOk := match filter.sender with
    | some fs => if fs = "" then true else jsIncludes (lowerStr sms.sender) (lowerStr fs)
    | none => true
  let bodyOk := match filter.contains with
    | some fc => if fc = "" then true else jsIncludes (lowerStr sms.body) (lowerStr fc)
    | none => true
  let codeOk := if filter.hasCode then (extractVerificationCode sms.body).isSome else true
  senderOk && bodyOk && codeOk


/-- `!filter || matchesFilter(sms, filter)` for the nullable filter. -/
def jsMatchesOpt (filter : Option SmsFilter) (sms : Sms) : Bool :=
  match filter with
  | none => true
  | some f => matchesFilter sms f

/-- The initial synchronous scan of `waitForSms` (src/index.js lines 184-188):
first stored message (array order, newest first) passing the filter. -/
def initialScan (filter : Option SmsFilter) (store : List Sms) : Option Sms :=
  store.find? (fun s => jsMatchesOpt filter s)

/-- One iteration of the inner `for` loop of `waitForSms` (src/index.js lines
195-204), scanning indices `0 ≤ i < store.length - startCount + 5` of the
current store.  `store[i]` past the end is JS `undefined`: every reachable
filter then dereferences a property of `undefined` (inside `matchesFilter`, or
at `sms.timestamp` when the filter is null or empty), so that iteration throws
a `TypeError`, modelled as `Except.error ()`.  A defined message is returned
when it passes the filter and `new Date(sms.timestamp).getTime() >
startTime - 60000` (a `NaN` time, `msOfIso = none`, compares false). -/
def pollScanGo (store : List Sms) (filter : Option SmsFilter) (startTime : Nat) :
    Nat → Nat → Except Unit (Option Sms)
  | _, 0 => .ok none
  | i, rem + 1 =>
    match store[i]? with
    | some sms =>
      if jsMatchesOpt filter sms then
        match msOfIso sms.timestamp with
        | some t => if (startTime : Int) - 60000 < t then .ok (some sms)
                    else pollScanGo store filter startTime (i + 1) rem
        | none => pollScanGo store filter startTime (i + 1) rem
      else pollScanGo store filter startTime (i + 1) rem
    | none => .error ()

/-- The inner scan with the source's loop bound
`smsMessages.length - startMessageCount + 5` (negative bounds run zero
iterations, as in JS). -/
def pollScan (store : List Sms) (startCount : Nat) (filter : Option SmsFilter)
    (startTime : Nat) : Except Unit (Option Sms) :=
  pollScanGo store filter startTime 0 ((store.length : Int) - startCount + 5).toNat

/-- The polling phase of `waitForSms` (the `while` loop, src/index.js lines
191-205): `ticks` lists the store contents observed at each 1-second poll
until the wall-clock timeout; exhausting it is the timeout (`return null`). -/
def pollPhase (filter : Option SmsFilter) (startCount : Nat) (startTime : Nat) :
    List (List Sms) → Except Unit (Option Sms)
  | [] => .ok none
  | store :: rest =>
    match pollScan store startCount filter startTime with
    | .error e => .error e
    | .ok (some m) => .ok (some m)
    | .ok none => pollPhase filter startCount startTime rest

/-- `waitForSms` (src/index.js lines 179-208): scan the existing store
synchronously, else poll.  `init` is the store at call time (so
`startMessageCount = init.length`), `startTime` the call instant, and `ticks`
the store states seen at the 1-second polls before the timeout elapses. -/
def waitForSmsModel (filter : Option SmsFilter) (init : List Sms)
    (startTime : Nat) (ticks : List (List Sms)) : Except Unit (Option Sms) :=
  match initialScan filter init with
  | some m => .ok (some m)
  | none => pollPhase filter init.length startTime ticks

/-! ## Ingestion paths. -/

/-- A notification inside an `sms_changed` push, as destructured by the code
(`notif.title`, `notif.body`, `notif.thread_id`). -/
structure StreamNotif where
  title : Option String := none
  body : Option String := none
  thread_id : String
deriving DecidableEq, Repr

/-- The inner `push` object of a stream frame, as destructured by
`handlePushbulletMessage`. -/
structure StreamPush where
  ptype : String
  notifications : Option (List StreamNotif) := none
  package_name : Option String := none
  title : Option String := none
  body : Option String := none
  application_name : Option String := none
deriving DecidableEq, Repr

/-- A decoded WebSocket frame (`msg.type`, `msg.subtype`, `msg.push`). -/
structure PbMessage where
  mtype : String
  subtype : Option String := none
  push : Option StreamPush := none
deriving DecidableEq, Repr

/-- The message built for one `sms_changed` stream notification (src/index.js
lines 78-84): id is thread id + "_" + `Date.now()`, timestamp is the local
receipt instant `new Date().toISOString()`; `now` is that instant in ms. -/
def streamSmsOfNotif (notif : StreamNotif) (now : Nat) : Sms :=
  { id := notif.thread_id ++ "_" ++ toString now,
    sender := jsOrStr notif.title "Unknown",
    body := jsOrStr notif.body "",
    timestamp := isoOfEpochMs now,
    threadId := some notif.thread_id }

/-- The message built for a `mirror` push (src/index.js lines 91-97). -/
def mirrorSmsOfPush (push : StreamPush) (now : Nat) : Sms :=
  { id := "mirror_" ++ toString now,
    sender := jsOrStr push.title "Unknown",
    body := jsOrStr push.body "",
    timestamp := isoOfEpochMs now,
    app := push.application_name }

/-- `handlePushbulletMessage` (src/index.js lines 63-101) as a store
transformer.  A tickle only triggers `fetchRecentPushes` (modelled separately)
and leaves the store unchanged here.  Note: the stream paths call
`addSmsMessage` directly with no duplicate-id check. -/
def handlePushbulletMessage (store : List Sms) (msg : PbMessage) (now : Nat) :
    List Sms :=
  if msg.mtype = "tickle" ∧ msg.subtype = some "push" then store
  else if msg.mtype = "push" then
    match msg.push with
    | some push =>
      let store1 :=
        if push.ptype = "sms_changed" then
          match push.notifications with
          | some notifs => notifs.foldl (fun st notif => addSmsMessage st (streamSmsOfNotif notif now)) store
          | none => store
        else store
      if push.ptype = "mirror" ∧ push.package_name = some "com.android.mms" then
        addSmsMessage store1 (mirrorSmsOfPush push now)
      else store1
    | none => store
  else store

/-- A push in the `/v2/pushes` poll response, as destructured by
`fetchRecentPushes` (`push.type`, `push.notifications`, `push.modified`,
the latter a whole-second Unix epoch per the relay contract). -/
structure PollPush where
  ptype : String
  notifications : Option (List StreamNotif) := none
  modified : Nat
deriving DecidableEq, Repr

/-- The message built for one poll-path notification (src/index.js lines
139-145): id is thread id + "_" + `push.modified`, timestamp is
`new Date(push.modified * 1000).toISOString()`. -/
def pollSmsOfNotif (notif : StreamNotif) (modified : Nat) : Sms :=
  { id := notif.thread_id ++ "_" ++ toString modified,
    sender := jsOrStr notif.title "Unknown",
    body := jsOrStr notif.body "",
    timestamp := isoOfEpochMs (modified * 1000),
    threadId := some notif.thread_id }

/-- The body of the inner loop of `fetchRecentPushes` (src/index.js lines
135-147): skip if some stored message already has the derived id, otherwise
`addSmsMessage`. -/
def pollIngestNotif (modified : Nat) (store : List Sms) (notif : StreamNotif) :
    List Sms :=
  let existingId := notif.thread_id ++ "_" ++ toString modified
  if store.any (fun s => s.id == existingId) then store
  else addSmsMessage store (pollSmsOfNotif notif modified)

/-- The store reconciliation of `fetchRecentPushes` (src/index.js lines
133-150), applied to the decoded `pushes` array. -/
def fetchRecentPushes (store : List Sms) (pushes : List PollPush) : List Sms :=
  pushes.foldl
    (fun st push =>
      if push.ptype = "sms_changed" then
        match push.notifications with
        | some notifs => notifs.foldl (pollIngestNotif push.modified) st
        | none => st
      else st)
    store

/-! ## The thread-snapshot path (`fetchSmsFromApi` and the `fetch_sms_threads`
tool, src/index.js lines 247-288 and 500-530). -/

structure ApiRecipient where
  name : Option String := none
  number : Option String := none
deriving DecidableEq, Repr

structure ApiThreadLatest where
  body : Option String := none
  timestamp : Nat
deriving DecidableEq, Repr

structure ApiThread where
  id : String
  recipients : Option (List ApiRecipient) := none
  latest : Option ApiThreadLatest := none
deriving DecidableEq, Repr

/-- The message built from one thread with a `latest` entry (src/index.js
lines 272-280): sender is
`thread.recipients?.[0]?.name || thread.recipients?.[0]?.number || "Unknown"`. -/
def threadToSms (thread : ApiThread) : Option Sms :=
  match thread.latest with
  | some latest =>
    let r0 := thread.recipients.bind List.head?
    some { id := thread.id,
           sender := jsOrStr (jsTruthy (r0.bind ApiRecipient.name) <|> r0.bind ApiRecipient.number) "Unknown",
           body := jsOrStr latest.body "",
           timestamp := isoOfEpochMs (latest.timestamp * 1000),
           threadId := some thread.id }
  | none => none

/-- `fetchSmsFromApi` (src/index.js lines 247-288) on a decoded `threads`
array: take the first `limit` threads and keep those with a `latest` message. -/
def fetchSmsFromApi (threads : List ApiThread) (limit : Nat) : List Sms :=
  (threads.take limit).filterMap threadToSms

/-- One iteration of the merge loop of the `fetch_sms_threads` tool handler
(src/index.js lines 514-517): if no stored message has the fetched message's
id, append it with `smsMessages.push(msg)` (the back of the array — not
`addSmsMessage`). -/
def mergeStep (st : List Sms) (m : Sms) : List Sms :=
  if st.any (fun s => s.id == m.id) then st else st ++ [m]

/-- The whole merge loop of the `fetch_sms_threads` tool handler (src/index.js
lines 513-518). -/
def mergeThreads (store : List Sms) (msgs : List Sms) : List Sms :=
  msgs.foldl mergeStep store

/-- JS `args.limit || d`: an absent or zero limit falls back to the default. -/
def jsLimitOr (o : Option Nat) (d : Nat) : Nat :=
  match o with
  | some n => if n = 0 then d else n
  | none => d

/-- The store update performed by one `fetch_sms_threads` call (src/index.js
lines 500-518). -/
def fetchSmsThreadsTool (store : List Sms) (threads : List ApiThread)
    (limit : Option Nat) : List Sms :=
  mergeThreads store (fetchSmsFromApi threads (jsLimitOr limit 20))

/-- The `get_recent_sms` tool handler's message selection (src/index.js lines
398-406): `smsMessages.slice(0, limit)` with `limit = args.limit || 10`, then,
only if `args.sender` is truthy, the case-insensitive sender filter. -/
def getRecentSms (store : List Sms) (limit : Option Nat) (sender : Option String) :
    List Sms :=
  let msgs := store.take (jsLimitOr limit 10)
  match sender with
  | some s => if s = "" then msgs
              else msgs.filter (fun sms => jsIncludes (lowerStr sms.sender) (lowerStr s))
  | none => msgs


/-! ## Concrete fixtures used in claim theorems, counterexamples and witnesses. -/

/-- A sample `sms_changed` notification. -/
def exNotif : StreamNotif :=
  { title := some "Bank", body := some "Your code is 482913", thread_id := "7" }

/-- A stream frame carrying `exNotif`. -/
def exSmsChangedFrame : PbMessage :=
  { mtype := "push",
    push := some { ptype := "sms_changed", notifications := some [exNotif] } }

/-- Distinct filler messages (id is the decimal index). -/
def mkSmsN (i : Nat) : Sms :=
  { id := toString i, sender := "s", body := "b", timestamp := "" }

/-- A thread-list entry with a `latest` message. -/
def exThread : ApiThread :=
  { id := "t1", recipients := some [{ name := some "Alice" }],
    latest := some { body := some "hello there", timestamp := 1700000000 } }

def exStoreA : Sms := { id := "a", sender := "Ann", body := "first inserted", timestamp := "" }

def exStoreB : Sms := { id := "b", sender := "Ben", body := "second inserted", timestamp := "" }

/-- Five stored messages, none matching the filters used in the tests. -/
def exFive : List Sms := (List.range 5).map mkSmsN

/-- A message whose timestamp parses to 1700000000000 ms. -/
def exFresh : Sms :=
  { id := "f", sender := "Acme", body := "hello", timestamp := "2023-11-14T22:13:20.000Z" }

/-- A stored message with thread id "t1". -/
def exOrig : Sms :=
  { id := "t1", sender := "Old Name", body := "old body",
    timestamp := "2020-01-01T00:00:00.000Z" }

/-- A later thread snapshot for the same thread id "t1" with fresher content. -/
def exNewer : Sms :=
  { id := "t1", sender := "New Name", body := "new body",
    timestamp := "2023-11-14T22:13:20.000Z" }

def exBob : Sms := { id := "x", sender := "Bob", body := "", timestamp := "" }

def exAlice : Sms := { id := "y", sender := "Alice", body := "", timestamp := "" }

/-- The poll-path message for `exNotif` at relay timestamp 1700000000. -/
def c1Stored : Sms := pollSmsOfNotif exNotif 1700000000

/-! ## Helper lemmas about the store operations. -/

theorem trimStoreAux_eq_take (n : Nat) :
    ∀ l : List Sms, l.length ≤ MAX_STORED_MESSAGES + n →
      trimStoreAux n l = l.take MAX_STORED_MESSAGES := by
  induction n with
  | zero =>
    intro l h
    simp only [trimStoreAux]
    exact (List.take_of_length_le (by omega)).symm
  | succ n ih =>
    intro l h
    simp only [trimStoreAux]
    split
    · rename_i hlen
      rw [ih l.dropLast (by rw [List.length_dropLast]; omega)]
      rw [List.dropLast_eq_take, List.take_take]
      congr 1
      omega
    · rename_i hlen
      exact (List.take_of_length_le (by omega)).symm

/-- The unshift-then-pop-while of `addSmsMessage` keeps exactly the first
`MAX_STORED_MESSAGES` entries. -/
theorem addSmsMessage_eq_take (st : List Sms) (m : Sms) :
    addSmsMessage st m = (m :: st).take MAX_STORED_MESSAGES :=
  trimStoreAux_eq_take _ _ (by omega)

theorem foldl_addSmsMessage (msgs : List Sms) :
    ∀ st : List Sms, st.length ≤ MAX_STORED_MESSAGES →
      msgs.foldl addSmsMessage st = (msgs.reverse ++ st).take MAX_STORED_MESSAGES := by
  induction msgs with
  | nil =>
    intro st h
    simp only [List.foldl_nil, List.reverse_nil, List.nil_append]
    exact (List.take_of_length_le (by omega)).symm
  | cons m rest ih =>
    intro st h
    simp only [List.foldl_cons, List.reverse_cons]
    rw [addSmsMessage_eq_take]
    rw [ih ((m :: st).take MAX_STORED_MESSAGES) (by simp [List.length_take])]
    rw [List.append_assoc, List.singleton_append]
    rw [List.take_append_eq_append_take, List.take_append_eq_append_take, List.take_take]
    rw [Nat.min_eq_left (Nat.sub_le _ _)]

/-- A sequence of `addSmsMessage` insertions from the empty store keeps
exactly the most recent `MAX_STORED_MESSAGES` insertions, newest first. -/
theorem insertAll_eq_take (msgs : List Sms) :
    insertAll msgs = msgs.reverse.take MAX_STORED_MESSAGES := by
  have h := foldl_addSmsMessage msgs [] (by simp [MAX_STORED_MESSAGES])
  simpa [insertAll] using h

/-- The `fetch_sms_threads` merge only ever appends at the back, and every
appended message has an id distinct from every id in the pre-merge store. -/
theorem mergeThreads_append (msgs : List Sms) :
    ∀ store : List Sms, ∃ suffix, mergeThreads store msgs = store ++ suffix ∧
      ∀ m ∈ suffix, ∀ s ∈ store, s.id ≠ m.id := by
  induction msgs with
  | nil =>
    intro store
    exact ⟨[], by simp [mergeThreads], by simp⟩
  | cons m rest ih =>
    intro store
    by_cases hm : store.any (fun s => s.id == m.id)
    · obtain ⟨suffix, heq, hids⟩ := ih store
      refine ⟨suffix, ?_, hids⟩
      simp only [mergeThreads, List.foldl_cons, mergeStep, if_pos hm]
      exact heq
    · obtain ⟨suffix, heq, hids⟩ := ih (store ++ [m])
      refine ⟨m :: suffix, ?_, ?_⟩
      · have hstep : mergeThreads store (m :: rest) = mergeThreads (store ++ [m]) rest := by
          simp only [mergeThreads, List.foldl_cons, mergeStep, if_neg hm]
        rw [hstep, heq]
        simp
      · intro x hx s hs
        rcases List.mem_cons.mp hx with rfl | hx2
        · intro hcontra
          apply hm
          exact List.any_eq_true.mpr ⟨s, hs, by simp [hcontra]⟩
        · exact hids x hx2 s (List.mem_append_left _ hs)

/-- Decomposition of a successful `find?`: the found element satisfies the
predicate and everything before it refutes it. -/
theorem find?_eq_some_split {p : Sms → Bool} {m : Sms} :
    ∀ {l : List Sms}, l.find? p = some m →
      p m = true ∧ ∃ pre post, l = pre ++ m :: post ∧ ∀ x ∈ pre, p x = false := by
  intro l
  induction l with
  | nil => intro h; simp at h
  | cons a t ih =>
    intro h
    by_cases hpa : p a
    · rw [List.find?_cons_of_pos _ hpa] at h
      obtain rfl : a = m := by simpa using h
      exact ⟨hpa, [], t, rfl, by simp⟩
    · rw [List.find?_cons_of_neg _ (by simpa using hpa)] at h
      obtain ⟨hpm, pre, post, rfl, hpre⟩ := ih h
      refine ⟨hpm, a :: pre, post, rfl, ?_⟩
      intro x hx
      rcases List.mem_cons.mp hx with rfl | hx2
      · simpa using hpa
      · exact hpre x hx2

/-- When a matching, fresh message sits at the head of the scanned store, the
first iteration of the poll loop returns it. -/
theorem pollScanGo_cons_head {filter : Option SmsFilter} {m : Sms} {t : Int}
    {startTime : Nat} (hm : jsMatchesOpt filter m = true)
    (hts : msOfIso m.timestamp = some t) (hfresh : (startTime : Int) - 60000 < t)
    (store : List Sms) (rem : Nat) :
    pollScanGo (m :: store) filter startTime 0 (rem + 1) = .ok (some m) := by
  simp only [pollScanGo, List.getElem?_cons_zero, hm, hts, if_true, if_pos hfresh]

/-- Any message returned by the poll loop passed the freshness test: its
parsed timestamp is strictly newer than 60 seconds before the wait started. -/
theorem pollScanGo_fresh {store : List Sms} {filter : Option SmsFilter}
    {startTime : Nat} {m : Sms} :
    ∀ rem i, pollScanGo store filter startTime i rem = .ok (some m) →
      ∃ t, msOfIso m.timestamp = some t ∧ (startTime : Int) - 60000 < t := by
  intro rem
  induction rem with
  | zero =>
    intro i h
    simp [pollScanGo] at h
  | succ n ih =>
    intro i h
    rw [pollScanGo] at h
    split at h
    · rename_i sms hg
      split at h
      · rename_i hmt
        split at h
        · rename_i t hts
          split at h
          · rename_i hf
            obtain rfl : sms = m := by simpa using h
            exact ⟨t, hts, hf⟩
          · exact ih _ h
        · exact ih _ h
      · exact ih _ h
    · simp at h

/-- Freshness guarantee lifted to the whole polling phase. -/
theorem pollPhase_fresh {filter : Option SmsFilter} {startCount startTime : Nat}
    {m : Sms} :
    ∀ ticks, pollPhase filter startCount startTime ticks = .ok (some m) →
      ∃ t, msOfIso m.timestamp = some t ∧ (startTime : Int) - 60000 < t := by
  intro ticks
  induction ticks with
  | nil => intro h; simp [pollPhase] at h
  | cons store rest ih =>
    intro h
    rw [pollPhase] at h
    cases hs : pollScan store startCount filter startTime with
    | error e => rw [hs] at h; simp at h
    | ok r =>
      rw [hs] at h
      cases r with
      | none => exact ih h
      | some m2 =>
        obtain rfl : m2 = m := by simpa using h
        exact pollScanGo_fresh _ _ hs


/-! ## Claim theorems. -/

set_option maxRecDepth 16384

/-- C1, counterexample: re-ingesting the same `sms_changed` stream frame at
the same `Date.now()` millisecond inserts a second message with the very same
id (`addSmsMessage` and the stream path of `handlePushbulletMessage` perform
no duplicate-id check), so same-id insertion is not a no-op on every ingestion
path and a reachable store holds two messages sharing an id. -/
theorem c1_counterexample :
    (handlePushbulletMessage (handlePushbulletMessage [] exSmsChangedFrame 1700000000000)
        exSmsChangedFrame 1700000000000).map Sms.id =
      ["7_1700000000000", "7_1700000000000"] := by
  decide

/-- C1 (corrected): the poll-reconcile path (`fetchRecentPushes`'s inner loop)
and the `fetch_sms_threads` merge do skip a message whose id is already
present, leaving the store unchanged; the stream path has no such check. -/
theorem c1_amended_dedup (store : List Sms) (notif : StreamNotif) (modified : Nat)
    (m : Sms)
    (h1 : store.any (fun s => s.id == notif.thread_id ++ "_" ++ toString modified) = true)
    (h2 : store.any (fun s => s.id == m.id) = true) :
    pollIngestNotif modified store notif = store ∧ mergeThreads store [m] = store := by
  constructor
  · simp only [pollIngestNotif, h1, if_true]
  · simp only [mergeThreads, List.foldl_cons, List.foldl_nil, mergeStep, h2, if_true]

/-- C1, witness for `c1_amended_dedup` at a concrete store already holding the
derived poll-path id. -/
theorem c1_amended_witness :
    pollIngestNotif 1700000000 [c1Stored] exNotif = [c1Stored] ∧
    mergeThreads [c1Stored] [c1Stored] = [c1Stored] :=
  c1_amended_dedup [c1Stored] exNotif 1700000000 c1Stored (by decide) (by decide)

/-- C2, counterexample: a store already holding 100 distinct messages (built
by `addSmsMessage` insertions) grows to 101 when `fetch_sms_threads` merges a
new thread — the merge uses `smsMessages.push` and never evicts, so the
`MAX_STORED` bound does not hold on every ingestion path. -/
theorem c2_counterexample :
    (fetchSmsThreadsTool (insertAll ((List.range 100).map mkSmsN)) [exThread] none).length
      = 101 ∧
    MAX_STORED_MESSAGES < 101 := by
  constructor
  · decide
  · decide

/-- C2 (corrected): every sequence of insertions performed through
`addSmsMessage` (the stream and poll-reconcile paths) keeps exactly the
`MAX_STORED` most recent insertions, newest first — so inserting
`MAX_STORED + k` distinct messages leaves exactly `MAX_STORED`, the `k`
oldest evicted from the tail. -/
theorem c2_amended_bound (msgs : List Sms) :
    insertAll msgs = msgs.reverse.take MAX_STORED_MESSAGES ∧
    (insertAll msgs).length = min msgs.length MAX_STORED_MESSAGES := by
  refine ⟨insertAll_eq_take msgs, ?_⟩
  rw [insertAll_eq_take, List.length_take, List.length_reverse, Nat.min_comm]

/-- C3, counterexample: after inserting `exStoreA` via `addSmsMessage` and
then merging the later-inserted `exStoreB` via the `fetch_sms_threads` loop,
`get_recent_sms` lists `exStoreA` first — not insertion order newest first,
because the merge appends at the back of the array. -/
theorem c3_counterexample :
    getRecentSms (mergeThreads (addSmsMessage [] exStoreA) [exStoreB]) none none =
      [exStoreA, exStoreB] ∧
    [exStoreA, exStoreB] ≠ [exStoreB, exStoreA] := by
  constructor
  · decide
  · decide

/-- C3 (corrected): `get_recent_sms` returns the first `limit` entries of the
store in array order; for stores built by `addSmsMessage` that is insertion
order newest first (for arbitrary timestamp values), but the
`fetch_sms_threads` merge only ever appends at the back, so its messages rank
last regardless of insertion time. -/
theorem c3_amended_order (msgs : List Sms) (lim : Nat) (store newMsgs : List Sms) :
    getRecentSms (insertAll msgs) (some lim) none =
      msgs.reverse.take (min (jsLimitOr (some lim) 10) MAX_STORED_MESSAGES) ∧
    ∃ suffix, mergeThreads store newMsgs = store ++ suffix := by
  constructor
  · simp only [getRecentSms]
    rw [insertAll_eq_take, List.take_take]
  · obtain ⟨suffix, heq, _⟩ := mergeThreads_append newMsgs store
    exact ⟨suffix, heq⟩

/-- C4 (code bug): with fewer than five stored messages at wait start and a
filter never satisfied, the poll loop bound `length - startCount + 5` reaches
past the end of the array, and the first 1-second iteration dereferences
`undefined` and throws (`Except.error ()`), instead of returning null at the
timeout; with five or more stored messages the same wait times out to null as
specified. -/
theorem c4_bug_eval :
    waitForSmsModel (some { contains := some "zzz" }) [] 1700000000000 [[], []]
      = .error () ∧
    waitForSmsModel (some { contains := some "zzz" }) exFive 1700000000000 [exFive, exFive]
      = .ok none := by
  constructor
  · rfl
  · rfl

/-- C5 (confirmed): `waitForSms` first synchronously scans the existing store
in array (newest-first) order and returns the first match immediately — for
every tick sequence, i.e. without suspending; otherwise, if a message
matching the filter and the freshness bound is at the head of the store at
some poll tick (as after an `addSmsMessage` unshift), that tick returns it,
independent of the remaining ticks before the timeout. -/
theorem c5_wait_promptness :
    (∀ (filter : Option SmsFilter) (init : List Sms) (startTime : Nat)
        (ticks : List (List Sms)) (m : Sms),
        initialScan filter init = some m →
          waitForSmsModel filter init startTime ticks = .ok (some m) ∧
          jsMatchesOpt filter m = true ∧
          ∃ pre post, init = pre ++ m :: post ∧ ∀ x ∈ pre, jsMatchesOpt filter x = false) ∧
    (∀ (filter : Option SmsFilter) (init : List Sms) (startTime : Nat)
        (m : Sms) (t : Int) (store : List Sms) (rest : List (List Sms)),
        initialScan filter init = none →
        init.length ≤ store.length + 1 →
        jsMatchesOpt filter m = true →
        msOfIso m.timestamp = some t →
        (startTime : Int) - 60000 < t →
        waitForSmsModel filter init startTime ((m :: store) :: rest) = .ok (some m)) := by
  constructor
  · intro filter init startTime ticks m h
    refine ⟨?_, ?_⟩
    · simp only [waitForSmsModel, h]
    · exact find?_eq_some_split h
  · intro filter init startTime m t store rest h0 hlen hm hts hfresh
    simp only [waitForSmsModel, h0]
    rw [pollPhase]
    have hscan : pollScan (m :: store) init.length filter startTime = .ok (some m) := by
      unfold pollScan
      have hb : (((m :: store).length : Int) - init.length + 5).toNat =
          (((m :: store).length : Int) - init.length + 5).toNat - 1 + 1 := by
        simp only [List.length_cons]
        omega
      rw [hb]
      exact pollScanGo_cons_head hm hts hfresh store _
    rw [hscan]

/-- C5, witness for `c5_wait_promptness`: the immediate-return branch on a
one-message store with a null filter, and the prompt-return branch when a
fresh matching message is unshifted onto five non-matching stored messages. -/
theorem c5_witness :
    (waitForSmsModel none [exFresh] 1700000000000 [] = .ok (some exFresh) ∧
      jsMatchesOpt none exFresh = true ∧
      ∃ pre post, [exFresh] = pre ++ exFresh :: post ∧
        ∀ x ∈ pre, jsMatchesOpt none x = false) ∧
    waitForSmsModel (some { contains := some "HELL" }) exFive 1700000000000
      [exFresh :: exFive] = .ok (some exFresh) := by
  constructor
  · exact c5_wait_promptness.1 none [exFresh] 1700000000000 [] exFresh (by decide)
  · exact c5_wait_promptness.2 (some { contains := some "HELL" }) exFive 1700000000000
      exFresh 1700000000000 exFive [] (by decide) (by decide) (by decide) (by decide)
      (by decide)

/-- C6 (confirmed): any message the polling phase of `waitForSms` returns has
a timestamp that parses and is strictly newer than 60 seconds before the wait
started; hence a message older than that bound is never returned by the
polling phase, even when it satisfies the filter. -/
theorem c6_poll_freshness (filter : Option SmsFilter) (startCount startTime : Nat)
    (ticks : List (List Sms)) (m : Sms)
    (h : pollPhase filter startCount startTime ticks = .ok (some m)) :
    ∃ t, msOfIso m.timestamp = some t ∧ (startTime : Int) - 60000 < t :=
  pollPhase_fresh ticks h

/-- C6, witness for `c6_poll_freshness` on a single poll tick holding one
fresh message. -/
theorem c6_witness :
    ∃ t, msOfIso exFresh.timestamp = some t ∧
      ((1700000000000 : Nat) : Int) - 60000 < t :=
  c6_poll_freshness none 0 1700000000000 [[exFresh]] exFresh (by rfl)

/-- C7 (confirmed): `extractVerificationCode` on the reference inputs — the
6-digit-run pattern captures "482913" in both phrasings (winning over the
phrase pattern), a codeless text yields nothing, a 6-digit run is preferred
over an earlier 4-digit run (pattern order), and an 8-digit run is captured. -/
theorem c7_extract_code :
    extractVerificationCode "Your code is 482913" = some "482913" ∧
    extractVerificationCode "482913 is your verification code" = some "482913" ∧
    extractVerificationCode "Hello, how are you?" = none ∧
    extractVerificationCode "1234 or 567890" = some "567890" ∧
    extractVerificationCode "code: 12345678" = some "12345678" :=
  ⟨rfl, rfl, rfl, rfl, rfl⟩

/-- C8, counterexample: a notification ingested on the stream channel is
stamped with the local receipt instant (`new Date().toISOString()`), not with
any relay-delivered whole-second epoch times 1000: the same relay frame
received at two different local instants stores two different timestamps, and
the stored instant carries nonzero milliseconds (".123Z"), which no
whole-second value times 1000 produces. -/
theorem c8_counterexample :
    (streamSmsOfNotif exNotif 1700000000123).timestamp = "2023-11-14T22:13:20.123Z" ∧
    (streamSmsOfNotif exNotif 1700000000123).timestamp ≠
      (streamSmsOfNotif exNotif 1700000500123).timestamp := by
  constructor
  · decide
  · decide

/-- C8 (corrected): on the poll paths — the recent-pushes reconcile and the
thread snapshot — the relay's whole-second epoch is multiplied by 1000 and
formatted as a millisecond-precision ISO-8601 instant (1700000000 becomes
"2023-11-14T22:13:20.000Z"); the direct stream path instead stores the local
receipt instant. -/
theorem c8_amended_conversion :
    (∀ (notif : StreamNotif) (modified : Nat),
        (pollSmsOfNotif notif modified).timestamp = isoOfEpochMs (modified * 1000)) ∧
    (∀ thread : ApiThread, (threadToSms thread).map Sms.timestamp =
        thread.latest.map (fun latest => isoOfEpochMs (latest.timestamp * 1000))) ∧
    (pollSmsOfNotif exNotif 1700000000).timestamp = "2023-11-14T22:13:20.000Z" ∧
    (∀ (notif : StreamNotif) (now : Nat),
        (streamSmsOfNotif notif now).timestamp = isoOfEpochMs now) := by
  refine ⟨fun _ _ => rfl, ?_, by decide, fun _ _ => rfl⟩
  intro thread
  cases h : thread.latest <;> simp [threadToSms, h]

/-- C9 (confirmed): `get_recent_sms` truncates to the first `limit` store
entries before applying the sender filter, so the result is exactly the
sender-matching entries among the `limit` newest entries, every returned
message lies in that prefix, and a matching message at position `limit` or
beyond is dropped even when fewer than `limit` messages are reported. -/
theorem c9_sender_after_truncate (store : List Sms) (lim : Option Nat) (s : String)
    (hs : ¬s = "") :
    getRecentSms store lim (some s) =
      (store.take (jsLimitOr lim 10)).filter
        (fun sms => jsIncludes (lowerStr sms.sender) (lowerStr s)) ∧
    (∀ m ∈ getRecentSms store lim (some s), m ∈ store.take (jsLimitOr lim 10)) ∧
    getRecentSms [exBob, exAlice] (some 1) (some "ali") = [] := by
  have h1 : getRecentSms store lim (some s) =
      (store.take (jsLimitOr lim 10)).filter
        (fun sms => jsIncludes (lowerStr sms.sender) (lowerStr s)) := by
    simp only [getRecentSms, if_neg hs]
  refine ⟨h1, ?_, by decide⟩
  intro m hm
  rw [h1] at hm
  exact List.mem_of_mem_filter hm

/-- C9, witness for `c9_sender_after_truncate` with the sender filter "ali". -/
theorem c9_witness :
    getRecentSms [exAlice] none (some "ali") =
      ([exAlice].take (jsLimitOr none 10)).filter
        (fun sms => jsIncludes (lowerStr sms.sender) (lowerStr "ali")) ∧
    (∀ m ∈ getRecentSms [exAlice] none (some "ali"),
      m ∈ [exAlice].take (jsLimitOr none 10)) ∧
    getRecentSms [exBob, exAlice] (some 1) (some "ali") = [] :=
  c9_sender_after_truncate [exAlice] none "ali" (by decide)

/-- C10 (confirmed): when some stored message already carries id `i`, the
`fetch_sms_threads` merge leaves the store's entries untouched (it only ever
appends, and appends no message with id `i`), so the stored message's body,
sender and timestamp are never replaced by the thread's newer latest message:
the sub-sequence of entries with id `i` is exactly what it was before. -/
theorem c10_merge_never_replaces (store msgs : List Sms) (i : String)
    (h : ∃ s, s ∈ store ∧ s.id = i) :
    (∃ suffix, mergeThreads store msgs = store ++ suffix ∧ ∀ m ∈ suffix, m.id ≠ i) ∧
    (mergeThreads store msgs).filter (fun s => s.id == i) =
      store.filter (fun s => s.id == i) := by
  obtain ⟨s0, hs0, rfl⟩ := h
  obtain ⟨suffix, heq, hids⟩ := mergeThreads_append msgs store
  have hsuf : ∀ m ∈ suffix, m.id ≠ s0.id := fun m hm hc => (hids m hm s0 hs0) hc.symm
  refine ⟨⟨suffix, heq, hsuf⟩, ?_⟩
  rw [heq, List.filter_append]
  have hnil : suffix.filter (fun s => s.id == s0.id) = [] := by
    rw [List.filter_eq_nil_iff]
    intro a ha
    simpa using hsuf a ha
  rw [hnil, List.append_nil]

/-- C10, witness for `c10_merge_never_replaces`: merging a fresher snapshot
of thread "t1" leaves the stored "t1" message exactly as it was. -/
theorem c10_witness :
    (∃ suffix, mergeThreads [exOrig] [exNewer] = [exOrig] ++ suffix ∧
      ∀ m ∈ suffix, m.id ≠ "t1") ∧
    (mergeThreads [exOrig] [exNewer]).filter (fun s => s.id == "t1") =
      [exOrig].filter (fun s => s.id == "t1") :=
  c10_merge_never_replaces [exOrig] [exNewer] "t1" ⟨exOrig, by decide, by decide⟩
